import Mathlib

set_option autoImplicit false

/-
Shallow embedding of the `flat` package of stocktwits/go-infrastructure
(src/flat/dynamic_value.go, src/flat/csv.go, src/flat/splits.go, and the
formatter source file): a dynamic-value-to-CSV export engine.

Modelling conventions:
- Go `error` values are modelled as `Option String` / `Except String`,
  keeping the exact format strings of the source (an `fmt.Errorf("...: %w", e)`
  wrap becomes string concatenation of the prefix with the wrapped message).
- Go `float64` payloads are modelled as exact rationals; every float64 is a
  dyadic rational, and the only float operation the source performs is the
  exactness test `float64(int(fval)) == fval`, which on in-range values holds
  exactly when the rational has denominator 1.
- An `io.Reader` root is modelled together with the behaviour of the
  `json.Decoder` the source wraps around it: the list of objects the decoder
  would successfully decode, followed by either clean EOF (`none`) or a decode
  error (`some message`).
- The byte sinks behind destinations are modelled as accumulated strings.
  `encoding/csv`'s writer buffers via bufio and delivers bytes to the
  underlying sink on Flush; the model delivers the accumulated buffer only
  when the export reaches its final flush, matching bufio for outputs below
  the 4096-byte auto-flush threshold (no claim exercises larger outputs).
-/

-- Decidable equality for Except results, used to evaluate concrete export
-- outcomes by decide.
deriving instance DecidableEq for Except

/-- The Go `DataType` enumeration from dynamic_value.go (DataTypeObject,
DataTypeArray, DataTypeArrayOfObjects, DataTypeStreamOfObjects, DataTypeString,
DataTypeFloat, DataTypeInt, DataTypeBoolean, DataTypeNull). -/
inductive DataType where
  | object
  | array
  | arrayOfObjects
  | streamOfObjects
  | string
  | float
  | int
  | boolean
  | null
deriving DecidableEq, Repr

/-- Models the Go `any` payload stored in a DynamicValue. The constructors
mirror the concrete Go types the source type-switches on: `map[string]any`,
`[]any`, `[]map[string]any`, `string`, `float64`, `int`, `bool`, `io.Reader`
(together with the json.Decoder behaviour on it, see header comment), and a
nil interface. -/
inductive GoValue where
  | obj (fields : List (String × GoValue))
  | arr (elems : List GoValue)
  | arrObj (elems : List (List (String × GoValue)))
  | str (s : String)
  | float (q : ℚ)
  | int (n : ℤ)
  | bool (b : Bool)
  | stream (items : List (List (String × GoValue))) (terminal : Option String)
  | null

/-- Models the Go test `v == nil` on an `any` payload. -/
def GoValue.isNil : GoValue → Bool
  | .null => true
  | _ => false

/-- A Go `map[string]any` payload (keys unique, as in any Go map). -/
abbrev Obj := List (String × GoValue)

/-- Association-list lookup standing in for Go map indexing `m[k]`. -/
def lookupStr {β : Type} : List (String × β) → String → Option β
  | [], _ => none
  | (k, v) :: rest, key => if k = key then some v else lookupStr rest key

/-- The sentinel returned by strVal alongside errors: `errorStrValue` in
dynamic_value.go. -/
def errorStrValue : String := "<ERROR>"

/-- DynamicValue from dynamic_value.go: a data type tag, the raw payload, and
an optional stored error. A nil payload is `GoValue.null`. -/
structure DynamicValue where
  dataType : DataType
  value : GoValue
  err : Option String

/-- getDataTypeFromValue from dynamic_value.go: the type switch classifying a
raw value. The default case (covering nil and any unlisted Go type) yields
DataTypeNull. -/
def getDataTypeFromValue : GoValue → DataType
  | .obj _ => .object
  | .arr _ => .array
  | .arrObj _ => .arrayOfObjects
  | .str _ => .string
  | .float _ => .float
  | .int _ => .int
  | .bool _ => .boolean
  | .stream _ _ => .streamOfObjects
  | .null => .null

/-- newDynamicValue from dynamic_value.go. -/
def newDynamicValue (d : GoValue) : DynamicValue :=
  { dataType := getDataTypeFromValue d, value := d, err := none }

/-- The distinguished null constant `DynamicValueNull` from dynamic_value.go. -/
def DynamicValueNull : DynamicValue :=
  { dataType := .null, value := .null, err := none }

/-- errorDynamicValue from dynamic_value.go. -/
def errorDynamicValue (e : String) : DynamicValue :=
  { dataType := .null, value := .null, err := some e }

/-- StreamJSONFromReader from dynamic_value.go: wraps a reader without
materializing it (`newDynamicValue(r)`). -/
def StreamJSONFromReader (items : List Obj) (terminal : Option String) : DynamicValue :=
  newDynamicValue (.stream items terminal)

/-- Models fmt.Sprintf "%g" on a float64 payload. For integral values this
matches Go (%g prints 30.0 as "30"); for non-integral values Go's
shortest-round-trip digit string is not replicated digit-for-digit (no claim
in this development evaluates float formatting). -/
def formatFloat (q : ℚ) : String :=
  if q.den = 1 then toString q.num else toString q.num ++ "/" ++ toString q.den

/-- Models a character escape inside a JSON string for json.Marshal. -/
def jsonEscapeChar (c : Char) : String :=
  if c = '"' then "\\\""
  else if c = '\\' then "\\\\"
  else if c = '\n' then "\\n"
  else if c = '\r' then "\\r"
  else if c = '\t' then "\\t"
  else String.singleton c

/-- Models escaping of a JSON string for json.Marshal. -/
def jsonEscape (s : String) : String :=
  String.join (s.toList.map jsonEscapeChar)

mutual
/-- Models the stdlib json.Marshal call made by strVal for object/array
payloads: compact JSON text, failing on unmarshalable payloads (an io.Reader
inside the data). Go additionally sorts map keys and escapes HTML characters;
the model emits fields in payload order (key order inside a Go map is a
modelling artifact of the list representation). No claim depends on the exact
marshalled text. -/
def goJsonMarshal : GoValue → Except String String
  | .obj fields =>
    match marshalFields fields with
    | .error e => .error e
    | .ok parts => .ok ("\x7b" ++ String.intercalate "," parts ++ "\x7d")
  | .arr xs =>
    match marshalElems xs with
    | .error e => .error e
    | .ok parts => .ok ("[" ++ String.intercalate "," parts ++ "]")
  | .arrObj xs =>
    match marshalObjs xs with
    | .error e => .error e
    | .ok parts => .ok ("[" ++ String.intercalate "," parts ++ "]")
  | .str s => .ok ("\"" ++ jsonEscape s ++ "\"")
  | .float q => .ok (formatFloat q)
  | .int n => .ok (toString n)
  | .bool b => .ok (if b then "true" else "false")
  | .stream _ _ => .error "json: unsupported type: io.Reader"
  | .null => .ok "null"

/-- Marshals the fields of one JSON object. -/
def marshalFields : List (String × GoValue) → Except String (List String)
  | [] => .ok []
  | (k, v) :: rest =>
    match goJsonMarshal v with
    | .error e => .error e
    | .ok vs =>
      match marshalFields rest with
      | .error e => .error e
      | .ok restParts => .ok (("\"" ++ jsonEscape k ++ "\":" ++ vs) :: restParts)

/-- Marshals the elements of one JSON array. -/
def marshalElems : List GoValue → Except String (List String)
  | [] => .ok []
  | v :: rest =>
    match goJsonMarshal v with
    | .error e => .error e
    | .ok vs =>
      match marshalElems rest with
      | .error e => .error e
      | .ok restParts => .ok (vs :: restParts)

/-- Marshals the elements of an array of objects (each element marshals as a
JSON object, as goJsonMarshal does for the object constructor). -/
def marshalObjs : List (List (String × GoValue)) → Except String (List String)
  | [] => .ok []
  | o :: rest =>
    match marshalFields o with
    | .error e => .error e
    | .ok parts =>
      match marshalObjs rest with
      | .error e => .error e
      | .ok restParts => .ok (("\x7b" ++ String.intercalate "," parts ++ "\x7d") :: restParts)
end

/-- strVal from dynamic_value.go: the (string, error) pair it returns,
switching first on the stored error and then on the data type. Branches where
the payload constructor does not match the tag correspond to Go type
assertions that cannot fail for values built by newDynamicValue (Go would
panic); they return the sentinel with an error in the model. -/
def DynamicValue.strVal (d : DynamicValue) : String × Option String :=
  match d.err with
  | some e => (errorStrValue, some ("data contains error: " ++ e))
  | none =>
    match d.dataType with
    | .object | .array | .arrayOfObjects =>
      match goJsonMarshal d.value with
      | .ok s => (s, none)
      | .error e => (errorStrValue, some ("failed to marshal data: " ++ e))
    | .string =>
      match d.value with
      | .str s => (s, none)
      | _ => (errorStrValue, some "invalid dynamic value")
    | .float =>
      match d.value with
      | .float q => (formatFloat q, none)
      | _ => (errorStrValue, some "invalid dynamic value")
    | .int =>
      match d.value with
      | .int n => (toString n, none)
      | _ => (errorStrValue, some "invalid dynamic value")
    | .boolean =>
      match d.value with
      | .bool b => (if b then "true" else "false", none)
      | _ => (errorStrValue, some "invalid dynamic value")
    | .streamOfObjects => (errorStrValue, some "data is a stream of objects, cannot convert to string")
    | .null => ("", none)

/-- rootKey from dynamic_value.go: single-key object navigation, returning the
null constant for non-objects and missing keys. -/
def DynamicValue.rootKey (d : DynamicValue) (key : String) : DynamicValue :=
  if d.dataType ≠ DataType.object then DynamicValueNull
  else
    match d.value with
    | .obj fields =>
      match lookupStr fields key with
      | some v => newDynamicValue v
      | none => DynamicValueNull
    | _ => DynamicValueNull

/-- Key from dynamic_value.go: walks nested object keys left to right; the
empty key list yields the null constant. -/
def DynamicValue.Key (d : DynamicValue) : List String → DynamicValue
  | [] => DynamicValueNull
  | [k] => d.rootKey k
  | k :: ks => (d.rootKey k).Key ks

/-- The Go Formatter function type from the formatter source file:
`func(*DynamicValue) (*DynamicValue, error)`. -/
abbrev Formatter := DynamicValue → Except String DynamicValue

/-- Format from dynamic_value.go: applies a transformation function; a nil
function (here `none`) returns the receiver; an error from the function is
wrapped into an error-tagged value. -/
def DynamicValue.Format (d : DynamicValue) (formatterFunc : Option Formatter) : DynamicValue :=
  match formatterFunc with
  | none => d
  | some f =>
    match f d with
    | .error e => errorDynamicValue ("error transforming data: " ++ e)
    | .ok data => data

/-- NewFormatter from the formatter source file, instantiated at element kinds.
Go's generic `NewFormatter[T, S](f)` fixes the expected input kind
`getDataTypeFromType[T]` and output kind `getDataTypeFromType[S]` at the
instantiation; the model takes those two kinds explicitly and the wrapped
function as a payload transformer. The first branch models
`dv == nil || dv.Value() == nil` (a nil payload is `GoValue.null`); the Go
error text "invalid data types: %T to %T" is abbreviated to its fixed prefix. -/
def NewFormatter (tIn tOut : DataType) (f : GoValue → Except String GoValue) : Formatter :=
  fun dv =>
    if dv.value.isNil then .ok dv
    else if tIn = DataType.null ∨ tOut = DataType.null then .error "invalid data types"
    else if tIn ≠ dv.dataType then .error "formatter function type mismatch with data type"
    else
      match f dv.value with
      | .error e => .error ("error formatting data: " ++ e)
      | .ok newVal => .ok (newDynamicValue newVal)

/-- Source from csv.go: a cursor over one DynamicValue. -/
structure Source where
  data : DynamicValue

/-- Source.Key from csv.go. -/
def Source.Key (s : Source) (keys : List String) : Source :=
  ⟨s.data.Key keys⟩

/-- Source.format from csv.go (note: it wraps formatter errors with a
different prefix than DynamicValue.Format does). -/
def Source.format (s : Source) (formater : Option Formatter) : Source :=
  match formater with
  | none => s
  | some f =>
    match f s.data with
    | .error e => ⟨errorDynamicValue ("error formatting data: " ++ e)⟩
    | .ok newData => ⟨newData⟩

/-- Source.strVal from csv.go. -/
def Source.strVal (s : Source) : String × Option String :=
  s.data.strVal

/-- One call a flattener makes against its Dest: `Col(name, value)` is a
formatter of `none`, `ColFormatted(name, value, f)` carries `some f`. -/
structure ColCall where
  name : String
  value : Source
  formatter : Option Formatter

/-- The flattener function type from csv.go, `func(s Source, b Dest)`,
represented by the sequence of Col/ColFormatted calls it issues against the
Dest for a given Source. -/
abbrev Flattener := Source → List ColCall

/-- row from csv.go: the column map (modelled as an assoc list with map
semantics, see lookupStr), the ordered header list, and the headers flag. -/
structure Row where
  columns : List (String × Source)
  headers : List String
  withHeaders : Bool

/-- Replacement-or-append update standing in for Go map assignment
`r.columns[name] = value`. -/
def upsert : List (String × Source) → String → Source → List (String × Source)
  | [], name, v => [(name, v)]
  | (k, v0) :: rest, name, v =>
    if k = name then (name, v) :: rest else (k, v0) :: upsert rest name v

/-- newRow from csv.go. -/
def newRow (withHeaders : Bool) : Row :=
  { columns := [], headers := [], withHeaders := withHeaders }

/-- row.ColFormatted from csv.go: records the header name on first appearance
(only when the row tracks headers), applies the formatter when present, and
stores the column. -/
def Row.ColFormatted (r : Row) (name : String) (value : Source) (formatter : Option Formatter) : Row :=
  let headers :=
    if r.withHeaders ∧ ¬ r.headers.contains name then r.headers ++ [name] else r.headers
  let value :=
    match formatter with
    | none => value
    | some f => value.format (some f)
  { r with headers := headers, columns := upsert r.columns name value }

/-- row.Col from csv.go: ColFormatted with a nil formatter. -/
def Row.Col (r : Row) (name : String) (value : Source) : Row :=
  r.ColFormatted name value none

/-- row.hasHeaders from csv.go. -/
def Row.hasHeaders (r : Row) : Bool :=
  r.withHeaders

/-- row.getHeaders from csv.go (nil for a row without headers). -/
def Row.getHeaders (r : Row) : List String :=
  if r.withHeaders then r.headers else []

/-- Builds the row a flattener produces: newRow followed by the flattener's
sequence of Col/ColFormatted calls. -/
def buildRow (s : Source) (withHeaders : Bool) (f : Flattener) : Row :=
  (f s).foldl (fun r c => r.ColFormatted c.name c.value c.formatter) (newRow withHeaders)

/-- The splitter interface from splits.go, extensionally: shouldInclude as a
function of the header and the DynamicValue. -/
abbrev Splitter := String → DynamicValue → Except String Bool

/-- The data Go's generic `getSplitFunc[T](rawSplitFunc)` closes over: the
expected kind `getDataTypeFromType[T]` (the kind of T's zero value) and the
raw test applied to the payload. The test is only ever applied to payloads
whose dynamic type matches the instantiation (the Go type assertion). -/
structure RawSplitFunc where
  expected : DataType
  test : GoValue → Bool

/-- getSplitFunc from splits.go: the int/float widening branch first (only
when no precision is lost: `float64(int(fval)) == fval`, i.e. denominator 1),
then the kind-mismatch check, then the raw test on the asserted payload. -/
def getSplitFunc (raw : RawSplitFunc) : DynamicValue → Except String Bool :=
  fun dv =>
    let widened : Option Bool :=
      if raw.expected = DataType.int ∧ dv.dataType = DataType.float then
        match dv.value with
        | .float q => if q.den = 1 then some (raw.test (.int q.num)) else none
        | _ => none
      else none
    match widened with
    | some b => .ok b
    | none =>
      if dv.dataType ≠ raw.expected then .error "split function type mismatch with data type"
      else .ok (raw.test dv.value)

/-- singleSplitter from splits.go. -/
structure SingleSplitter where
  header : String
  includeFunc : Option (DynamicValue → Except String Bool)

/-- singleSplitter.shouldInclude from splits.go: a non-matching header always
includes; a nil include function always includes. -/
def SingleSplitter.shouldInclude (s : SingleSplitter) (header : String) (dv : DynamicValue) : Except String Bool :=
  if s.header ≠ header then .ok true
  else
    match s.includeFunc with
    | none => .ok true
    | some f => f dv

/-- NewSplitter from splits.go. -/
def NewSplitter (header : String) (raw : RawSplitFunc) : Splitter :=
  (SingleSplitter.mk header (some (getSplitFunc raw))).shouldInclude

/-- The `T = any` instantiation NoSplit uses: the zero value of `any` is a nil
interface, which getDataTypeFromValue classifies as the null kind, and the raw
function ignores its argument and returns true. -/
def anyRawFunc : RawSplitFunc :=
  { expected := DataType.null, test := fun _ => true }

/-- The splitter half of NoSplit from splits.go:
`NewSplitter("", func(_ any) bool { return true })`. The writer half is the
identity sink, modelled by the per-destination output buffer in ExportSplit. -/
def noSplitSplitter : Splitter :=
  NewSplitter "" anyRawFunc

/-- The splitOperation enumeration from splits.go. -/
inductive SplitOperation where
  | and
  | or
deriving DecidableEq

/-- splitWriterOperation from splits.go, minus the embedded io.Writer (the
writer is modelled by the destination buffer in ExportSplit). -/
structure SplitWriterOperation where
  splitters : List Splitter
  operation : SplitOperation

/-- SplitAnd from splits.go (writer omitted, see SplitWriterOperation). -/
def SplitAnd (spliters : List Splitter) : SplitWriterOperation :=
  { splitters := spliters, operation := .and }

/-- SplitOr from splits.go (writer omitted, see SplitWriterOperation). -/
def SplitOr (spliters : List Splitter) : SplitWriterOperation :=
  { splitters := spliters, operation := .or }

/-- The iteration inside splitWriterOperation.shouldInclude: sub-splitter
errors are wrapped and returned; AND short-circuits on false, OR on true;
exhausting the list yields true for AND and false for OR. -/
def SplitWriterOperation.shouldIncludeLoop (op : SplitOperation) (header : String) (dv : DynamicValue) : List Splitter → Except String Bool
  | [] => .ok (op == SplitOperation.and)
  | s :: rest =>
    match s header dv with
    | .error e => .error ("error checking split condition: " ++ e)
    | .ok inc =>
      if op = SplitOperation.and ∧ ¬ inc then .ok false
      else if op = SplitOperation.or ∧ inc then .ok true
      else SplitWriterOperation.shouldIncludeLoop op header dv rest

/-- splitWriterOperation.shouldInclude from splits.go: an empty splitter list
includes all data. -/
def SplitWriterOperation.shouldInclude (s : SplitWriterOperation) (header : String) (dv : DynamicValue) : Except String Bool :=
  if s.splitters.length = 0 then .ok true
  else SplitWriterOperation.shouldIncludeLoop s.operation header dv s.splitters

/-- CSV from csv.go. A CSV in the error state carries Go nil for rootData and
flattener; the model fills the unused fields with inert values. -/
structure CSV where
  rootData : DynamicValue
  err : Option String
  flattener : Flattener

/-- rootDataTypes from csv.go: the four kinds supported as CSV roots. -/
def rootDataTypes : List DataType :=
  [.object, .array, .arrayOfObjects, .streamOfObjects]

/-- newErrorCsv from csv.go. -/
def newErrorCsv (e : String) : CSV :=
  { rootData := DynamicValueNull, err := some e, flattener := fun _ => [] }

/-- newCsv from csv.go: a root carrying an error, or a root outside
rootDataTypes, produces an error CSV. -/
def newCsv (rootDynamicValue : DynamicValue) (f : Flattener) : CSV :=
  match rootDynamicValue.err with
  | some e => newErrorCsv e
  | none =>
    if rootDataTypes.contains rootDynamicValue.dataType then
      { rootData := rootDynamicValue, err := none, flattener := f }
    else newErrorCsv "data type is not supported for CSV generation"

/-- GetCSV from dynamic_value.go. -/
def DynamicValue.GetCSV (d : DynamicValue) (f : Flattener) : CSV :=
  newCsv d f

/-- streamRows from csv.go, sequentially: the list of rows the producer sends
on the channel, paired with the terminal error it stores into t.err (stream
decode failure). Per-kind behaviour follows the source switch: one row with
headers for an object root; one row per element with headers only on index 0
for array / array-of-objects roots; one row per successfully decoded object
for a stream root, stopping at a decode error. Branches where the payload
constructor does not match the tag correspond to Go type assertions that
cannot fail for roots accepted by newCsv. Note that on the decode-error path
the Go producer returns without executing `close(rows)`. -/
def streamRows (t : CSV) : List Row × Option String :=
  match t.rootData.dataType with
  | .object =>
    ([buildRow ⟨t.rootData⟩ true t.flattener], none)
  | .array =>
    match t.rootData.value with
    | .arr items =>
      (items.enum.map (fun p => buildRow ⟨newDynamicValue p.2⟩ (p.1 == 0) t.flattener), none)
    | _ => ([], none)
  | .arrayOfObjects =>
    match t.rootData.value with
    | .arrObj items =>
      (items.enum.map (fun p => buildRow ⟨newDynamicValue (.obj p.2)⟩ (p.1 == 0) t.flattener), none)
    | _ => ([], none)
  | .streamOfObjects =>
    match t.rootData.value with
    | .stream items terminal =>
      (items.enum.map (fun p => buildRow ⟨newDynamicValue (.obj p.2)⟩ (p.1 == 0) t.flattener),
       terminal.map (fun e => "error decoding JSON stream: " ++ e))
    | _ => ([], none)
  | _ => ([], none)

/-- Models encoding/csv's fieldNeedsQuotes with the default comma: an empty
field needs none; the literal field `\.` is quoted; a field containing the
comma, a quote, or a line break is quoted; a field starting with white space
is quoted (Go tests the first rune with unicode.IsSpace; Char.isWhitespace
covers the ASCII cases every claim uses). -/
def fieldNeedsQuotes (field : String) : Bool :=
  if field = "" then false
  else if field = "\\." then true
  else
    (field.data.any (fun c => c == ',' || c == '"' || c == '\r' || c == '\n')) ||
      (match field.data with
       | [] => false
       | c :: _ => c.isWhitespace)

/-- Doubles every quote character, as encoding/csv does inside a quoted
field. -/
def escapeQuotes : List Char → List Char
  | [] => []
  | c :: rest =>
    if c = '"' then '"' :: '"' :: escapeQuotes rest else c :: escapeQuotes rest

/-- Models encoding/csv field rendering: quoted fields double their interior
quotes. (Go additionally normalizes line breaks inside quoted fields; no
claim exercises fields containing line breaks.) -/
def csvField (field : String) : String :=
  if fieldNeedsQuotes field then "\"" ++ String.mk (escapeQuotes field.data) ++ "\"" else field

/-- Models encoding/csv's Write with the default comma and UseCRLF=false: the
fields joined by commas, terminated by a single newline. -/
def csvRecord (fields : List String) : String :=
  String.intercalate "," (fields.map csvField) ++ "\n"

/-- One column step of the per-destination loop of ExportSplit (csv.go lines
91-110): an absent column produces the empty string and consults nothing; a
present column asks the destination's splitter keyed by the header name and
the column's DynamicValue — a splitter error aborts with the wrapped error, a
false answer excludes the row for this destination (`none`), and an included
column is rendered via strVal, whose error also aborts. -/
def buildField1 (sp : Splitter) (r : Row) (h : String) : Except String (Option String) :=
  match lookupStr r.columns h with
  | none => .ok (some "")
  | some column =>
    match sp h column.data with
    | .error e => .error ("error checking split condition for header " ++ h ++ ": " ++ e)
    | .ok false => .ok none
    | .ok true =>
      match column.strVal.2 with
      | some e => .error ("failed to get value for header " ++ h ++ ": " ++ e)
      | none => .ok (some column.strVal.1)

/-- The inner per-destination loop of ExportSplit over the declared headers of
the current row (csv.go lines 88-111), folding buildField1 left to right with
the source's early exits: an error aborts everything, an exclusion stops the
scan (Go `break`, so later columns are not consulted) and returns `none`, and
otherwise the rendered fields are collected in header order. -/
def buildFields (sp : Splitter) (r : Row) : List String → Except String (Option (List String))
  | [] => .ok (some [])
  | h :: hs =>
    match buildField1 sp r h with
    | .error e => .error e
    | .ok none => .ok none
    | .ok (some val) =>
      match buildFields sp r hs with
      | .error e => .error e
      | .ok none => .ok none
      | .ok (some fields) => .ok (some (val :: fields))

/-- The per-row loop of ExportSplit over the writers (csv.go lines 88-120):
each destination evaluates the row independently; a predicate or strVal error
aborts everything, exclusion skips the record for that destination only.
`bufs` are the per-destination csv.Writer buffers. -/
def processRowWriters (sps : List Splitter) (bufs : List String) (r : Row) (headers : List String) : Except String (List String)
  :=
  match sps, bufs with
  | [], rest => .ok rest
  | _ :: _, [] => .ok []
  | sp :: sps, b :: bufs =>
    match buildFields sp r headers with
    | .error e => .error e
    | .ok none =>
      match processRowWriters sps bufs r headers with
      | .error e => .error e
      | .ok restBufs => .ok (b :: restBufs)
    | .ok (some fields) =>
      match processRowWriters sps bufs r headers with
      | .error e => .error e
      | .ok restBufs => .ok ((b ++ csvRecord fields) :: restBufs)

/-- The row loop of ExportSplit (csv.go lines 77-121): a row carrying headers
replaces the current header set and writes the header record to every
destination before the per-destination processing. -/
def processRows (splitters : List Splitter) : List Row → List String → List String → Except String (List String)
  | [], _, bufs => .ok bufs
  | r :: rest, headers, bufs =>
    let headers1 := if r.hasHeaders then r.getHeaders else headers
    let bufs1 := if r.hasHeaders then bufs.map (fun b => b ++ csvRecord r.getHeaders) else bufs
    match processRowWriters splitters bufs1 r headers1 with
    | .error e => .error e
    | .ok bufs2 => processRows splitters rest headers1 bufs2

/-- ExportSplit from csv.go, as the pair of the returned error and the bytes
each destination's underlying sink has received. A CSV in the error state
returns the wrapped stored error before creating any writer, so every sink
stays empty. Otherwise the rows the producer goroutine sends are consumed in
order; an abort mid-stream leaves the csv.Writer buffers unflushed, so the
sinks also stay empty, and a completed run flushes every buffer. The terminal
producer error `(streamRows t).2` is stored into t.err by the goroutine but
never re-read by this call; on that path the Go producer also skips
`close(rows)`, so the real call never returns — the model charitably assumes
the channel is closed and the call completes with the decoded prefix. -/
def CSV.ExportSplit (t : CSV) (splitters : List Splitter) : Except String Unit × List String :=
  match t.err with
  | some e =>
    (.error ("cannot export CSV due to previous error: " ++ e), splitters.map (fun _ => ""))
  | none =>
    match processRows splitters (streamRows t).1 [] (splitters.map (fun _ => "")) with
    | .error e => (.error e, splitters.map (fun _ => ""))
    | .ok bufs => (.ok (), bufs)

/-- Export from csv.go: ExportSplit with a single NoSplit destination. -/
def CSV.Export (t : CSV) : Except String Unit × List String :=
  t.ExportSplit [noSplitSplitter]

/-- The `T = int` instantiation of getSplitFunc's raw function: Go's
`func(int) bool`. The catch-all branch is unreachable through getSplitFunc,
whose kind check guarantees the payload is an int before the type assertion. -/
def intRawFunc (g : ℤ → Bool) : RawSplitFunc :=
  { expected := DataType.int
    test := fun v => match v with | .int n => g n | _ => false }

/-- The null constant is not an object, so rootKey on it yields it back. -/
theorem rootKey_nonobject (d : DynamicValue) (k : String) (h : d.dataType ≠ DataType.object) :
    d.rootKey k = DynamicValueNull := by
  simp [DynamicValue.rootKey, h]

/-- Key on a non-object root yields the null constant for any nonempty key
list. -/
theorem key_cons_nonobject (d : DynamicValue) (k : String) (ks : List String)
    (h : d.dataType ≠ DataType.object) : d.Key (k :: ks) = DynamicValueNull := by
  induction ks generalizing d k with
  | nil => simpa [DynamicValue.Key] using rootKey_nonobject d k h
  | cons k2 ks2 ih =>
    show (d.rootKey k).Key (k2 :: ks2) = DynamicValueNull
    rw [rootKey_nonobject d k h]
    exact ih DynamicValueNull k2 (by simp [DynamicValueNull])

/-- Iterating Key on the null constant stays at the null constant. -/
theorem iterate_key_null (k : String) (n : ℕ) :
    (fun x => DynamicValue.Key x [k])^[n] DynamicValueNull = DynamicValueNull := by
  induction n with
  | zero => rfl
  | succ m ih =>
    rw [Function.iterate_succ_apply]
    have hstep : DynamicValueNull.Key [k] = DynamicValueNull :=
      key_cons_nonobject DynamicValueNull k [] (by simp [DynamicValueNull])
    simpa [hstep] using ih

/-- C8: Key with an empty name list, Key on a non-object value, and Key naming
an absent key all return the distinguished null constant, which carries no
error; consequently chaining Key on an absent name any number of times stays
at the null constant. -/
theorem key_safe_navigation :
    (∀ d : DynamicValue, d.Key [] = DynamicValueNull)
    ∧ (∀ (d : DynamicValue) (k : String) (ks : List String),
        d.dataType ≠ DataType.object → d.Key (k :: ks) = DynamicValueNull)
    ∧ (∀ (fields : Obj) (k : String), lookupStr fields k = none →
        (newDynamicValue (.obj fields)).Key [k] = DynamicValueNull)
    ∧ DynamicValueNull.err = none
    ∧ (∀ (d : DynamicValue) (k : String) (n : ℕ),
        d.Key [k] = DynamicValueNull →
        (fun x => DynamicValue.Key x [k])^[n + 1] d = DynamicValueNull) := by
  refine ⟨fun d => rfl, key_cons_nonobject, ?_, rfl, ?_⟩
  · intro fields k hnone
    show (newDynamicValue (.obj fields)).rootKey k = DynamicValueNull
    simp [DynamicValue.rootKey, newDynamicValue, getDataTypeFromValue, hnone]
  · intro d k n hnull
    rw [Function.iterate_succ_apply]
    simpa [hnull] using iterate_key_null k n

/-- Application of key_safe_navigation at a concrete object missing the key
"missing", once and chained three times. -/
theorem key_safe_navigation_witness :
    (newDynamicValue (.obj [("a", GoValue.str "x")])).Key ["missing"] = DynamicValueNull
    ∧ (fun x => DynamicValue.Key x ["missing"])^[3] (newDynamicValue (.obj [("a", GoValue.str "x")]))
      = DynamicValueNull := by
  have h1 : (newDynamicValue (.obj [("a", GoValue.str "x")])).Key ["missing"] = DynamicValueNull :=
    key_safe_navigation.2.2.1 [("a", GoValue.str "x")] "missing" rfl
  exact ⟨h1, key_safe_navigation.2.2.2.2 _ "missing" 2 h1⟩

/-- C9: strVal of a null-kind value with no stored error is the empty string
with no error; strVal of a stream-of-objects value is always an error; strVal
of a value carrying a stored error is the fixed sentinel string together with
an error wrapping the stored one. -/
theorem strVal_null_stream_error_cases :
    (∀ d : DynamicValue, d.dataType = DataType.null → d.err = none →
        d.strVal = ("", none))
    ∧ (∀ d : DynamicValue, d.dataType = DataType.streamOfObjects → d.err = none →
        d.strVal = (errorStrValue, some "data is a stream of objects, cannot convert to string"))
    ∧ (∀ (d : DynamicValue) (e : String), d.err = some e →
        d.strVal = (errorStrValue, some ("data contains error: " ++ e))) := by
  refine ⟨?_, ?_, ?_⟩
  · rintro ⟨dt, v, er⟩ h1 h2
    simp only at h1 h2
    subst h1; subst h2
    rfl
  · rintro ⟨dt, v, er⟩ h1 h2
    simp only at h1 h2
    subst h1; subst h2
    rfl
  · rintro ⟨dt, v, er⟩ e h1
    simp only at h1
    subst h1
    rfl

/-- Application of strVal_null_stream_error_cases at the null constant, an
empty stream value, and an error-tagged value. -/
theorem strVal_cases_witness :
    DynamicValueNull.strVal = ("", none)
    ∧ (StreamJSONFromReader [] none).strVal
      = (errorStrValue, some "data is a stream of objects, cannot convert to string")
    ∧ (errorDynamicValue "boom").strVal
      = (errorStrValue, some ("data contains error: " ++ "boom")) :=
  ⟨strVal_null_stream_error_cases.1 DynamicValueNull rfl rfl,
   strVal_null_stream_error_cases.2.1 (StreamJSONFromReader [] none) rfl rfl,
   strVal_null_stream_error_cases.2.2 (errorDynamicValue "boom") "boom" rfl⟩

/-- C1: a CSV built from a root that carries a stored error, or whose kind is
outside the four exportable kinds, is created in a permanent error state: every
subsequent Export or ExportSplit call returns that stored error (wrapped with
the fixed export prefix) and every destination sink receives zero bytes. -/
theorem csv_error_state_blocks_export :
    ∀ (root : DynamicValue) (f : Flattener),
      (root.err.isSome ∨ rootDataTypes.contains root.dataType = false) →
      ∃ e, (newCsv root f).err = some e
        ∧ (∀ e0, root.err = some e0 → e = e0)
        ∧ (∀ sps : List Splitter,
            (newCsv root f).ExportSplit sps
              = (.error ("cannot export CSV due to previous error: " ++ e),
                 sps.map (fun _ => "")))
        ∧ (newCsv root f).Export
            = (.error ("cannot export CSV due to previous error: " ++ e), [""]) := by
  intro root f h
  rcases herr : root.err with _ | e0
  · have hmem : root.dataType ∉ rootDataTypes := by
      rcases h with h | h
      · rw [herr] at h; simp at h
      · simpa using h
    refine ⟨"data type is not supported for CSV generation", ?_, ?_, ?_, ?_⟩
    · simp [newCsv, herr, hmem, newErrorCsv]
    · intro e0 h0; cases h0
    · intro sps
      simp [newCsv, herr, hmem, newErrorCsv, CSV.ExportSplit]
    · simp [newCsv, herr, hmem, newErrorCsv, CSV.ExportSplit, CSV.Export]
  · refine ⟨e0, ?_, ?_, ?_, ?_⟩
    · simp [newCsv, herr, newErrorCsv]
    · intro e1 h1; cases h1; rfl
    · intro sps
      simp [newCsv, herr, newErrorCsv, CSV.ExportSplit]
    · simp [newCsv, herr, newErrorCsv, CSV.ExportSplit, CSV.Export]

/-- Application of csv_error_state_blocks_export to a root carrying the stored
error "boom". -/
theorem csv_error_state_blocks_export_witness :
    (newCsv (errorDynamicValue "boom") (fun _ => [])).Export
      = (.error ("cannot export CSV due to previous error: " ++ "boom"), [""]) := by
  obtain ⟨e, _he, hstored, _hsplit, hexp⟩ :=
    csv_error_state_blocks_export (errorDynamicValue "boom") (fun _ => []) (Or.inl rfl)
  have h : e = "boom" := hstored "boom" rfl
  rw [h] at hexp
  exact hexp

/-- C2: against the claim, a stream root whose second element fails to decode
does not surface the decode error from the export call: the producer records
the error into t.err (visible as the terminal component of streamRows) but
returns without closing the rows channel, and ExportSplit never re-reads
t.err after its initial check, so — even granting termination, which the real
code loses to the skipped close — the call completes with Export returning ok
and only the rows for elements before the failing one written. -/
theorem stream_decode_error_lost :
    (newCsv (StreamJSONFromReader [[("a", GoValue.str "x")]] (some "invalid character"))
        (fun s => [⟨"a", s.Key ["a"], none⟩])).ExportSplit [noSplitSplitter]
      = (.ok (), ["a\nx\n"])
    ∧ (streamRows (newCsv (StreamJSONFromReader [[("a", GoValue.str "x")]] (some "invalid character"))
        (fun s => [⟨"a", s.Key ["a"], none⟩]))).2
      = some ("error decoding JSON stream: " ++ "invalid character") :=
  ⟨by decide, by decide⟩

/-- C3: exporting the object root with fields a = "x" and b = 1 through the
mapping that writes column a from key a and then column b from key b to a
single no-split destination produces exactly the bytes "a,b\nx,1\n". -/
theorem object_root_roundtrip_export :
    (newCsv (newDynamicValue (.obj [("a", .str "x"), ("b", .int 1)]))
        (fun s => [⟨"a", s.Key ["a"], none⟩, ⟨"b", s.Key ["b"], none⟩])).Export
      = (.ok (), ["a,b\nx,1\n"]) := by
  decide

/-- C4: against the claim that NoSplit is the identity predicate for every
column name, its splitter half rejects the empty column name: NoSplit is built
as NewSplitter with the empty header and a test over `any`, whose zero value
classifies as the null kind, so for a row column literally named "" holding a
non-null value the predicate returns a type-mismatch error instead of
including, and a whole export carrying such a column aborts. -/
theorem noSplit_empty_header_rejects :
    noSplitSplitter "" (newDynamicValue (.str "x"))
      = .error "split function type mismatch with data type"
    ∧ (newCsv (newDynamicValue (.obj [("a", .str "x")]))
        (fun s => [⟨"", s.Key ["a"], none⟩])).Export
      = (.error "error checking split condition for header : split function type mismatch with data type",
         [""]) :=
  ⟨by decide, by decide⟩

/-- C5: a splitter built from an int-typed test function and bound to column
C, evaluated at column C: a float-kind value with no fractional component
(denominator 1) behaves identically to the int-kind value holding that
integer, both running the test on the narrowed integer; a float with a
fractional component, and any kind other than int or float, yields the
type-mismatch error rather than a silent exclusion. -/
theorem int_predicate_numeric_widening :
    ∀ (C : String) (g : ℤ → Bool),
      (∀ q : ℚ, q.den = 1 →
        NewSplitter C (intRawFunc g) C (newDynamicValue (.float q))
          = NewSplitter C (intRawFunc g) C (newDynamicValue (.int q.num))
        ∧ NewSplitter C (intRawFunc g) C (newDynamicValue (.float q)) = .ok (g q.num))
      ∧ (∀ q : ℚ, q.den ≠ 1 →
          NewSplitter C (intRawFunc g) C (newDynamicValue (.float q))
            = .error "split function type mismatch with data type")
      ∧ (∀ v : GoValue, getDataTypeFromValue v ≠ DataType.int →
          getDataTypeFromValue v ≠ DataType.float →
          NewSplitter C (intRawFunc g) C (newDynamicValue v)
            = .error "split function type mismatch with data type") := by
  intro C g
  refine ⟨?_, ?_, ?_⟩
  · intro q hq
    constructor
    · simp [NewSplitter, SingleSplitter.shouldInclude, getSplitFunc, newDynamicValue,
        getDataTypeFromValue, intRawFunc, hq]
    · simp [NewSplitter, SingleSplitter.shouldInclude, getSplitFunc, newDynamicValue,
        getDataTypeFromValue, intRawFunc, hq]
  · intro q hq
    simp [NewSplitter, SingleSplitter.shouldInclude, getSplitFunc, newDynamicValue,
      getDataTypeFromValue, intRawFunc, hq]
  · intro v h1 h2
    simp [NewSplitter, SingleSplitter.shouldInclude, getSplitFunc, newDynamicValue,
      intRawFunc, h1, h2]

/-- Application of int_predicate_numeric_widening: the integral float 30
passes a test for 30 at its bound column, and the non-integral float 61/2 is
a type-mismatch error there. -/
theorem int_predicate_numeric_widening_witness :
    NewSplitter "age" (intRawFunc (fun n => n == 30)) "age"
      (newDynamicValue (.float (mkRat 30 1))) = .ok true
    ∧ NewSplitter "age" (intRawFunc (fun n => n == 30)) "age"
      (newDynamicValue (.float (mkRat 61 2)))
      = .error "split function type mismatch with data type" := by
  constructor
  · have h := ((int_predicate_numeric_widening "age" (fun n => n == 30)).1 (mkRat 30 1)
      (by decide)).2
    exact h.trans (by decide)
  · exact (int_predicate_numeric_widening "age" (fun n => n == 30)).2.1 (mkRat 61 2)
      (by decide)

/-- Splitters that answer include are passed over by an AND loop. -/
theorem loop_and_skip_true (header : String) (dv : DynamicValue) (l1 rest : List Splitter)
    (h : ∀ s ∈ l1, s header dv = .ok true) :
    SplitWriterOperation.shouldIncludeLoop .and header dv (l1 ++ rest)
      = SplitWriterOperation.shouldIncludeLoop .and header dv rest := by
  induction l1 with
  | nil => rfl
  | cons s l1 ih =>
    have hs := h s (by simp)
    have hrest : ∀ s2 ∈ l1, s2 header dv = .ok true :=
      fun s2 hs2 => h s2 (by simp [hs2])
    simp [SplitWriterOperation.shouldIncludeLoop, hs, ih hrest]

/-- Splitters that answer exclude are passed over by an OR loop. -/
theorem loop_or_skip_false (header : String) (dv : DynamicValue) (l1 rest : List Splitter)
    (h : ∀ s ∈ l1, s header dv = .ok false) :
    SplitWriterOperation.shouldIncludeLoop .or header dv (l1 ++ rest)
      = SplitWriterOperation.shouldIncludeLoop .or header dv rest := by
  induction l1 with
  | nil => rfl
  | cons s l1 ih =>
    have hs := h s (by simp)
    have hrest : ∀ s2 ∈ l1, s2 header dv = .ok false :=
      fun s2 hs2 => h s2 (by simp [hs2])
    simp [SplitWriterOperation.shouldIncludeLoop, hs, ih hrest]

/-- C7: composite destination predicates. With AND composition an empty
predicate list includes, a sub-predicate answering false (after earlier ones
answered true) makes the result exclude without consulting the rest, and a
list whose members all answer true includes. With OR composition an empty
list includes, a sub-predicate answering true (after earlier ones answered
false) makes the result include without consulting the rest, and a nonempty
list whose members all answer false excludes. A sub-predicate error, when
reached, makes the composite return that error (wrapped with the fixed
prefix). -/
theorem composite_and_or_predicates :
    ∀ (header : String) (dv : DynamicValue),
      ((SplitAnd []).shouldInclude header dv = .ok true)
      ∧ ((SplitOr []).shouldInclude header dv = .ok true)
      ∧ (∀ (l1 : List Splitter) (p : Splitter) (l2 : List Splitter),
          (∀ s ∈ l1, s header dv = .ok true) → p header dv = .ok false →
          (SplitAnd (l1 ++ p :: l2)).shouldInclude header dv = .ok false)
      ∧ (∀ l : List Splitter, (∀ s ∈ l, s header dv = .ok true) →
          (SplitAnd l).shouldInclude header dv = .ok true)
      ∧ (∀ (l1 : List Splitter) (p : Splitter) (l2 : List Splitter),
          (∀ s ∈ l1, s header dv = .ok false) → p header dv = .ok true →
          (SplitOr (l1 ++ p :: l2)).shouldInclude header dv = .ok true)
      ∧ (∀ l : List Splitter, l ≠ [] → (∀ s ∈ l, s header dv = .ok false) →
          (SplitOr l).shouldInclude header dv = .ok false)
      ∧ (∀ (l1 : List Splitter) (p : Splitter) (l2 : List Splitter) (e : String),
          (∀ s ∈ l1, s header dv = .ok true) → p header dv = .error e →
          (SplitAnd (l1 ++ p :: l2)).shouldInclude header dv
            = .error ("error checking split condition: " ++ e))
      ∧ (∀ (l1 : List Splitter) (p : Splitter) (l2 : List Splitter) (e : String),
          (∀ s ∈ l1, s header dv = .ok false) → p header dv = .error e →
          (SplitOr (l1 ++ p :: l2)).shouldInclude header dv
            = .error ("error checking split condition: " ++ e)) := by
  intro header dv
  refine ⟨rfl, rfl, ?_, ?_, ?_, ?_, ?_, ?_⟩
  · intro l1 p l2 hall hp
    simp only [SplitAnd, SplitWriterOperation.shouldInclude]
    rw [if_neg (by simp)]
    rw [loop_and_skip_true header dv l1 (p :: l2) hall]
    simp [SplitWriterOperation.shouldIncludeLoop, hp]
  · intro l hall
    rcases l with _ | ⟨s, l2⟩
    · rfl
    · simp only [SplitAnd, SplitWriterOperation.shouldInclude]
      rw [if_neg (by simp)]
      have h := loop_and_skip_true header dv (s :: l2) [] hall
      simpa [SplitWriterOperation.shouldIncludeLoop] using h
  · intro l1 p l2 hall hp
    simp only [SplitOr, SplitWriterOperation.shouldInclude]
    rw [if_neg (by simp)]
    rw [loop_or_skip_false header dv l1 (p :: l2) hall]
    simp [SplitWriterOperation.shouldIncludeLoop, hp]
  · intro l hne hall
    rcases l with _ | ⟨s, l2⟩
    · exact absurd rfl hne
    · simp only [SplitOr, SplitWriterOperation.shouldInclude]
      rw [if_neg (by simp)]
      have h := loop_or_skip_false header dv (s :: l2) [] hall
      simpa [SplitWriterOperation.shouldIncludeLoop] using h
  · intro l1 p l2 e hall hp
    simp only [SplitAnd, SplitWriterOperation.shouldInclude]
    rw [if_neg (by simp)]
    rw [loop_and_skip_true header dv l1 (p :: l2) hall]
    simp [SplitWriterOperation.shouldIncludeLoop, hp]
  · intro l1 p l2 e hall hp
    simp only [SplitOr, SplitWriterOperation.shouldInclude]
    rw [if_neg (by simp)]
    rw [loop_or_skip_false header dv l1 (p :: l2) hall]
    simp [SplitWriterOperation.shouldIncludeLoop, hp]

/-- Application of composite_and_or_predicates: an AND list with one true and
one false splitter excludes; an OR list with one false and one true splitter
includes. -/
theorem composite_and_or_predicates_witness :
    (SplitAnd [fun _ _ => .ok true, fun _ _ => .ok false]).shouldInclude "h" DynamicValueNull
      = .ok false
    ∧ (SplitOr [fun _ _ => .ok false, fun _ _ => .ok true]).shouldInclude "h" DynamicValueNull
      = .ok true := by
  constructor
  · exact (composite_and_or_predicates "h" DynamicValueNull).2.2.1
      [fun _ _ => .ok true] (fun _ _ => .ok false) []
      (by intro s hs; simp at hs; subst hs; rfl) rfl
  · exact (composite_and_or_predicates "h" DynamicValueNull).2.2.2.2.1
      [fun _ _ => .ok false] (fun _ _ => .ok true) []
      (by intro s hs; simp at hs; subst hs; rfl) rfl

/-- Unfolding equation for buildFields at a cons cell. -/
theorem buildFields_cons (sp : Splitter) (r : Row) (h : String) (hs : List String) :
    buildFields sp r (h :: hs)
      = match buildField1 sp r h with
        | Except.error e => Except.error e
        | Except.ok none => Except.ok none
        | Except.ok (some val) =>
          match buildFields sp r hs with
          | Except.error e => Except.error e
          | Except.ok none => Except.ok none
          | Except.ok (some fields) => Except.ok (some (val :: fields)) := rfl

/-- C6: during export, a destination resolves each declared header column of
the current row against the row's stored columns. When every present column's
predicate (asked with the header name and that column's DynamicValue) answers
include and stringifies cleanly, the rendered record has exactly one field
per declared header, with absent columns rendered as the empty string and
present columns rendered by strVal. A predicate error at a present column
(reached after earlier present columns answered include) aborts the field
construction with the wrapped error, and any such abort makes ExportSplit
return that error for the whole export, with no destination receiving bytes. -/
theorem export_column_resolution :
    (∀ (sp : Splitter) (r : Row) (headers : List String),
      (∀ h ∈ headers, ∀ col : Source, lookupStr r.columns h = some col →
        sp h col.data = .ok true ∧ col.strVal.2 = none) →
      buildFields sp r headers
        = .ok (some (headers.map (fun h =>
            match lookupStr r.columns h with
            | none => ""
            | some col => col.strVal.1))))
    ∧ (∀ (sp : Splitter) (r : Row) (hs1 : List String) (h : String) (hs2 : List String)
        (col : Source) (e : String),
      (∀ h2 ∈ hs1, ∀ col2 : Source, lookupStr r.columns h2 = some col2 →
        sp h2 col2.data = .ok true ∧ col2.strVal.2 = none) →
      lookupStr r.columns h = some col →
      sp h col.data = .error e →
      buildFields sp r (hs1 ++ h :: hs2)
        = .error ("error checking split condition for header " ++ h ++ ": " ++ e))
    ∧ (∀ (t : CSV) (sps : List Splitter) (e : String),
      t.err = none →
      processRows sps (streamRows t).1 [] (sps.map (fun _ => "")) = .error e →
      t.ExportSplit sps = (.error e, sps.map (fun _ => ""))) := by
  refine ⟨?_, ?_, ?_⟩
  · intro sp r headers
    induction headers with
    | nil => intro _; rfl
    | cons h hs ih =>
      intro hall
      have hrest : ∀ h2 ∈ hs, ∀ col : Source, lookupStr r.columns h2 = some col →
          sp h2 col.data = .ok true ∧ col.strVal.2 = none :=
        fun h2 hm col hc => hall h2 (by simp [hm]) col hc
      have h1 : buildField1 sp r h
          = .ok (some (match lookupStr r.columns h with
              | none => ""
              | some col => col.strVal.1)) := by
        rcases hl : lookupStr r.columns h with _ | col
        · simp [buildField1, hl]
        · obtain ⟨htrue, hsv⟩ := hall h (by simp) col hl
          simp [buildField1, hl, htrue, hsv]
      rw [buildFields_cons, h1, ih hrest]
      rfl
  · intro sp r hs1 h hs2 col e
    induction hs1 with
    | nil =>
      intro _ hcol herr
      have h1 : buildField1 sp r h
          = .error ("error checking split condition for header " ++ h ++ ": " ++ e) := by
        simp [buildField1, hcol, herr]
      show buildFields sp r (h :: hs2) = _
      rw [buildFields_cons, h1]
    | cons h2 hs1 ih =>
      intro hall hcol herr
      have hrest : ∀ h3 ∈ hs1, ∀ col3 : Source, lookupStr r.columns h3 = some col3 →
          sp h3 col3.data = .ok true ∧ col3.strVal.2 = none :=
        fun h3 hm col3 hc => hall h3 (by simp [hm]) col3 hc
      have hihe := ih hrest hcol herr
      have h1 : ∃ v, buildField1 sp r h2 = .ok (some v) := by
        rcases hl : lookupStr r.columns h2 with _ | col2
        · exact ⟨"", by simp [buildField1, hl]⟩
        · obtain ⟨htrue, hsv⟩ := hall h2 (by simp) col2 hl
          exact ⟨col2.strVal.1, by simp [buildField1, hl, htrue, hsv]⟩
      obtain ⟨v, h1⟩ := h1
      show buildFields sp r (h2 :: (hs1 ++ h :: hs2)) = _
      rw [buildFields_cons, h1, hihe]
  · intro t sps e ht hp
    have hp2 : processRows sps (streamRows t).1 [] (List.replicate sps.length "") = .error e := by
      simpa using hp
    simp [CSV.ExportSplit, ht, hp2]

/-- Application of export_column_resolution: a row holding only column a
renders against headers a,b as the field "x" followed by the empty string. -/
theorem export_column_resolution_witness :
    buildFields (fun _ _ => .ok true)
      { columns := [("a", ⟨newDynamicValue (.str "x")⟩)], headers := ["a", "b"], withHeaders := true }
      ["a", "b"]
      = .ok (some ["x", ""]) := by
  have h := export_column_resolution.1 (fun _ _ => .ok true)
    { columns := [("a", ⟨newDynamicValue (.str "x")⟩)], headers := ["a", "b"], withHeaders := true }
    ["a", "b"] ?_
  · exact h
  · intro h2 hm col hc
    simp only [List.mem_cons, List.not_mem_nil, or_false] at hm
    rcases hm with rfl | rfl
    · simp only [lookupStr, if_pos rfl] at hc
      cases hc
      exact ⟨rfl, rfl⟩
    · simp [lookupStr] at hc

/-- C10 counterexample: the null constant has a kind different from the
string kind a formatter expects, yet Format returns it unchanged and not
error-tagged, because NewFormatter returns the receiver whenever its payload
is nil before any kind check. -/
theorem format_null_payload_counterexample :
    DynamicValueNull.Format (some (NewFormatter DataType.string DataType.string (fun v => .ok v)))
      = DynamicValueNull
    ∧ DynamicValueNull.dataType ≠ DataType.string
    ∧ DynamicValueNull.err = none :=
  ⟨rfl, by decide, rfl⟩

/-- C10 (amended): Format with a nil formatter returns the receiver
unchanged; a formatter built by NewFormatter for non-null input and output
kinds, applied to a value with a non-nil payload whose kind differs from the
expected one, yields an error-tagged value without invoking the wrapped
function (the result does not depend on it); when the receiver's payload is
nil — as for the null constant and error-tagged values — the receiver is
returned unchanged, also without invoking the function. -/
theorem format_nil_noop_and_mismatch :
    (∀ d : DynamicValue, d.Format none = d)
    ∧ (∀ (tIn tOut : DataType) (f : GoValue → Except String GoValue) (d : DynamicValue),
        d.value.isNil = false → tIn ≠ DataType.null → tOut ≠ DataType.null →
        d.dataType ≠ tIn →
        d.Format (some (NewFormatter tIn tOut f))
          = errorDynamicValue
              ("error transforming data: " ++ "formatter function type mismatch with data type"))
    ∧ (∀ (tIn tOut : DataType) (f : GoValue → Except String GoValue) (d : DynamicValue),
        d.value.isNil = true →
        d.Format (some (NewFormatter tIn tOut f)) = d) := by
  refine ⟨fun d => rfl, ?_, ?_⟩
  · intro tIn tOut f d h1 h2 h3 h4
    have hne : tIn ≠ d.dataType := fun hc => h4 hc.symm
    simp [DynamicValue.Format, NewFormatter, h1, h2, h3, hne]
  · intro tIn tOut f d h1
    simp [DynamicValue.Format, NewFormatter, h1]

/-- Application of format_nil_noop_and_mismatch: a string-to-string formatter
applied to an int-kind value yields the error-tagged mismatch result, and a
nil formatter leaves a string value unchanged. -/
theorem format_nil_noop_and_mismatch_witness :
    (newDynamicValue (.int 3)).Format
        (some (NewFormatter DataType.string DataType.string (fun v => .ok v)))
      = errorDynamicValue
          ("error transforming data: " ++ "formatter function type mismatch with data type")
    ∧ (newDynamicValue (.str "x")).Format none = newDynamicValue (.str "x") :=
  ⟨format_nil_noop_and_mismatch.2.1 DataType.string DataType.string (fun v => .ok v)
      (newDynamicValue (.int 3)) rfl (by decide) (by decide) (by decide),
   format_nil_noop_and_mismatch.1 (newDynamicValue (.str "x"))⟩
